import Mathlib

/-!
Verification of the execution-orchestration core of the multi-agent analysis
pipeline (`project/main.py`, `project/adk_helper.py`, `project/agents/*.py`).

The embedding is shallow: Python coroutines become Lean functions; the
`asyncio.gather` fan-out becomes explicit assembly over a list of task
outcomes; a raised Python exception is an `Except.error` carrying `str(e)`;
Python `None` is `Option.none`; mutable dataframe objects live in an explicit
`Store` so that aliasing and in-place column assignment are visible.

Per the specification, the statistical / ML / rendering computations inside
the tasks (pandas aggregates, sklearn fits, matplotlib, reportlab, json) are
external collaborators of the core; they appear here as explicit function or
outcome parameters, while every piece of control flow, state manipulation,
envelope construction and error containment is translated from the source.
-/

/-! ## Retrying invoker (`project/adk_helper.py`, `safe_call_adk`) -/

/-- Observable trace of one `safe_call_adk` run: the value returned, how many
times the wrapped operation was called, and the backoff delays slept (one per
failed attempt, in order). -/
structure RetryTrace where
  returned : Option String
  calls : Nat
  delays : List ℚ
deriving Repr, DecidableEq

/-- Loop body of `safe_call_adk`, translated from
`for attempt in range(retries): result = await agent.call_adk(...); if result
is not None: return result; delay = base_delay * (2 ** attempt) +
random.random(); await asyncio.sleep(delay)`.

`op k` is the value the operation (`agent.call_adk`) returns on attempt `k`;
`jitter k` is the value `random.random()` yields before the sleep that follows
a failed attempt `k`.  `attempt` is the current loop index, `remaining` the
number of loop iterations left. -/
def safe_call_adk_from (op : Nat → Option String) (jitter : Nat → ℚ)
    (base_delay : ℚ) : Nat → Nat → RetryTrace
  | _, 0 => ⟨none, 0, []⟩
  | attempt, remaining + 1 =>
    match op attempt with
    | some r => ⟨some r, 1, []⟩
    | none =>
      let d := base_delay * 2 ^ attempt + jitter attempt
      let rest := safe_call_adk_from op jitter base_delay (attempt + 1) remaining
      ⟨rest.returned, rest.calls + 1, d :: rest.delays⟩

/-- `safe_call_adk(agent, prompt, context, retries, base_delay)`:
run the loop starting at attempt 0; after the loop falls through, the function
returns `None` (already the value recorded by the base case). -/
def safe_call_adk (op : Nat → Option String) (jitter : Nat → ℚ)
    (retries : Nat) (base_delay : ℚ) : RetryTrace :=
  safe_call_adk_from op jitter base_delay 0 retries

/-! ## Dataframe model

A pandas `DataFrame` is modelled as a list of named columns; each column has a
dtype tag (`numeric` for the `np.number` dtypes, `object` for
object/categorical) and a list of cells, where `Cell.null` models a missing
value (NaN/None). -/

/-- One dataframe cell: a numeric value, a string value, or missing. -/
inductive Cell where
  | num (q : ℚ)
  | str (s : String)
  | null
deriving Repr, DecidableEq

/-- Column dtype tag, the granularity at which the agents call
`select_dtypes(include=[np.number])` and
`select_dtypes(include=['object','category'])`. -/
inductive Dtype where
  | numeric
  | object
deriving Repr, DecidableEq

/-- A dataframe column. -/
structure Column where
  dtype : Dtype
  cells : List Cell
deriving Repr, DecidableEq

/-- A dataframe: named columns in order. -/
abbrev DataFrame := List (String × Column)

/-- `len(df)`: number of rows (length of the columns; 0 for no columns). -/
def nRows (df : DataFrame) : Nat :=
  (df.head?.map (fun c => c.2.cells.length)).getD 0

/-- `df.shape`: (rows, columns). -/
def dfShape (df : DataFrame) : Nat × Nat := (nRows df, df.length)

/-- `df.columns` as a list of names. -/
def colNames (df : DataFrame) : List String := df.map Prod.fst

/-- `df[col]`: column lookup (the agents only index columns taken from
`df.columns`, so a missing name never arises on the paths modelled). -/
def getCol (df : DataFrame) (name : String) : Column :=
  ((df.find? (fun c => c.1 = name)).map Prod.snd).getD ⟨Dtype.object, []⟩

/-- `df[col] = series`: replace the named column in place. -/
def setCol (df : DataFrame) (name : String) (c : Column) : DataFrame :=
  df.map (fun p => if p.1 = name then (p.1, c) else p)

/-- `df.drop(columns=[name])`. -/
def dropCol (df : DataFrame) (name : String) : DataFrame :=
  df.filter (fun p => p.1 ≠ name)

/-- Names of the numeric columns (`select_dtypes(include=[np.number]).columns`). -/
def numericColNames (df : DataFrame) : List String :=
  (df.filter (fun p => p.2.dtype = Dtype.numeric)).map Prod.fst

/-- Names of the object/categorical columns
(`select_dtypes(include=['object','category']).columns`). -/
def objectColNames (df : DataFrame) : List String :=
  (df.filter (fun p => p.2.dtype = Dtype.object)).map Prod.fst

/-- `series.isnull().sum()`. -/
def nullCount (c : Column) : Nat := c.cells.countP (fun x => x = Cell.null)

/-- `df.isnull().sum().to_dict()`: per-column missing counts. -/
def missingDict (df : DataFrame) : List (String × Nat) :=
  df.map (fun p => (p.1, nullCount p.2))

/-- `df.dtypes.astype(str).to_dict()` at the granularity of the model. -/
def dtypesDict (df : DataFrame) : List (String × Dtype) :=
  df.map (fun p => (p.1, p.2.dtype))

/-- Non-null numeric values of a column (what pandas aggregates skip NaN over). -/
def numValues (c : Column) : List ℚ :=
  c.cells.filterMap (fun x => match x with | Cell.num q => some q | _ => none)

/-- Non-null cells of a column (the values pandas `mode()` ranks). -/
def nonNullCells (c : Column) : List Cell :=
  c.cells.filter (fun x => x ≠ Cell.null)

/-- `series.fillna(v)`: replace missing cells by `v`; `v = none` models filling
with NaN (pandas leaves the gaps as NaN, i.e. no visible change). -/
def fillCells (c : Column) (v : Option Cell) : Column :=
  match v with
  | some x => ⟨c.dtype, c.cells.map (fun cell => if cell = Cell.null then x else cell)⟩
  | none => c

/-- `series.fillna(0)` for a numeric fit input. -/
def fillZeroCol (c : Column) : Column := fillCells c (some (Cell.num 0))

/-- `df.fillna(0)` applied to every column. -/
def fillZeroDf (df : DataFrame) : DataFrame :=
  df.map (fun p => (p.1, fillZeroCol p.2))

/-- Row `i` of the dataframe (one cell per column). -/
def rowAt (df : DataFrame) (i : Nat) : List Cell :=
  df.map (fun p => p.2.cells.getD i Cell.null)

/-- The dataframe as a list of rows. -/
def dfRows (df : DataFrame) : List (List Cell) :=
  (List.range (nRows df)).map (rowAt df)

/-- Deduplicate keeping the first occurrence of every row, the semantics of
`drop_duplicates()` (pandas keeps the first by default). -/
def dedupFirst (seen : List (List Cell)) : List (List Cell) → List (List Cell)
  | [] => []
  | r :: rest =>
    if r ∈ seen then dedupFirst seen rest else r :: dedupFirst (r :: seen) rest

/-- `int(df.duplicated().sum())`: rows marked as later duplicates. -/
def dupCount (df : DataFrame) : Nat :=
  (dfRows df).length - (dedupFirst [] (dfRows df)).length

/-- Rebuild a dataframe with the original column names and dtypes from a list
of surviving rows. -/
def fromRows (df : DataFrame) (rs : List (List Cell)) : DataFrame :=
  (df.enum).map (fun p =>
    (p.2.1, ⟨p.2.2.dtype, rs.map (fun r => r.getD p.1 Cell.null)⟩))

/-- `df.drop_duplicates()`. -/
def dropDuplicates (df : DataFrame) : DataFrame :=
  fromRows df (dedupFirst [] (dfRows df))

/-! ## Object store

Python dataframes are heap objects passed by reference; `copy()` allocates a
fresh object, and `df[col] = ...` mutates in place.  The store makes those
effects explicit so read-only claims about the shared input are meaningful. -/

/-- Reference to a dataframe object. -/
abbrev Ref := Nat

/-- Heap of dataframe objects. -/
structure Store where
  dfs : List DataFrame
deriving Repr, DecidableEq

/-- Dereference (the agents only read references they were handed or created). -/
def Store.read (s : Store) (r : Ref) : DataFrame := (s.dfs.get? r).getD []

/-- Allocate a fresh dataframe object (`copy()`, `drop(...)`, literals). -/
def Store.alloc (s : Store) (d : DataFrame) : Ref × Store :=
  (s.dfs.length, ⟨s.dfs ++ [d]⟩)

/-- In-place update of an existing object (`df[col] = ...`). -/
def Store.write (s : Store) (r : Ref) (d : DataFrame) : Store :=
  ⟨s.dfs.set r d⟩

/-! ## Result envelope

The `AgentResult` dataclass, repeated verbatim in every agent module:
`agent_name: str; status: str; data: any; execution_time: float;
error: str = None`. -/

/-- The uniform result envelope.  `data` and `error` are `Option`s because the
Python fields hold `None` when absent; `α` is the task-specific payload. -/
structure AgentResult (α : Type) where
  agent_name : String
  status : String
  data : Option α
  execution_time : ℚ
  error : Option String := none
deriving Repr, DecidableEq

/-- The envelope `run_pipeline` synthesizes when a gathered phase-1 task came
back as an exception: `type('R', (), {'agent_name': k, 'status': 'error',
'data': None, 'execution_time': 0, 'error': str(res)})()`. -/
def synthEnvelope (α : Type) (k : String) (desc : String) : AgentResult α :=
  ⟨k, "error", none, 0, some desc⟩

/-- Envelope well-formedness as the source maintains it: status is one of the
two literals, a success envelope has a payload and no error field, a failure
envelope has no payload and a (possibly empty) error description. -/
def envelopeOk {α : Type} (r : AgentResult α) : Prop :=
  (r.status = "success" ∨ r.status = "error") ∧
  (r.status = "success" → r.data.isSome ∧ r.error = none) ∧
  (r.status = "error" → r.data = none ∧ r.error.isSome)

/-- Envelope shape exactly as the claim words it: additionally the error
description of a failure envelope is a non-empty string. -/
def envelopeStrictOk {α : Type} (r : AgentResult α) : Prop :=
  (r.status = "success" ∨ r.status = "error") ∧
  (r.status = "success" → r.data.isSome ∧ r.error = none) ∧
  (r.status = "error" → r.data = none ∧ r.error ≠ none ∧ r.error ≠ some "")

instance {α : Type} [DecidableEq α] (r : AgentResult α) : Decidable (envelopeOk r) := by
  unfold envelopeOk; infer_instance

instance {α : Type} [DecidableEq α] (r : AgentResult α) : Decidable (envelopeStrictOk r) := by
  unfold envelopeStrictOk; infer_instance

/-! ## Data cleaning agent (`project/agents/data_cleaning.py`) -/

/-- Structured record of one entry appended to `cleaning_report["operations"]`
(the source renders these as f-strings; the string formatting is out-of-scope
presentation). -/
inductive CleanOp where
  | fillMedian (col : String) (median : Option ℚ)
  | fillMode (col : String) (modeVal : Cell)
  | removeDup (count : Nat)
deriving Repr, DecidableEq

/-- `cleaning_report["adk_recommendations"]`: the `json.loads` result when
parsing succeeds, otherwise the raw response string (`except: ... str(adk_resp)`). -/
inductive AdkRec where
  | parsed (j : String)
  | raw (s : String)
deriving Repr, DecidableEq

/-- The `data_summary` dict handed to the ADK call. -/
structure DataSummary where
  shape : Nat × Nat
  dtypes : List (String × Dtype)
  missing : List (String × Nat)
  duplicates : Nat
deriving Repr, DecidableEq

/-- The `cleaning_report` dict in its final shape. -/
structure CleaningReport where
  original_shape : Nat × Nat
  missing_values_before : List (String × Nat)
  operations : List CleanOp
  adk_recommendations : Option AdkRec
  cleaned_shape : Nat × Nat
  missing_values_after : List (String × Nat)
deriving Repr, DecidableEq

/-- The success payload `{"cleaned_df": cleaned_df, "report": cleaning_report}`
(`cleaned_df` recorded by value, the object the returned reference points to). -/
structure CleaningPayload where
  cleaned_df : DataFrame
  report : CleaningReport
deriving Repr, DecidableEq

/-- One of the two fill loops: for each listed column of the cleaned object,
if it has missing cells, compute a replacement column plus a report entry via
`upd` and assign it in place (`cleaned_df[col] = cleaned_df[col].fillna(...)`). -/
def fillLoop (upd : String → Column → Column × CleanOp) (cleaned : Ref) :
    List String → Store → List CleanOp → Store × List CleanOp
  | [], s, ops => (s, ops)
  | col :: rest, s, ops =>
    let df := s.read cleaned
    let c := getCol df col
    if 0 < nullCount c then
      let p := upd col c
      fillLoop upd cleaned rest (s.write cleaned (setCol df col p.1)) (ops ++ [p.2])
    else
      fillLoop upd cleaned rest s ops

/-- Body of `DataCleaningAgent.execute` (the code under `try:`), translated
statement by statement over the store.  External collaborators appear as
parameters: `seriesMedian`/`seriesMode` are the pandas aggregates over the
non-missing values (`none` when pandas would yield NaN / an empty mode),
`jsonParse` is the json library (`some` = parsed), `adkCall` is the value
`await safe_call_adk(self, prompt, data_summary)` resolves to, and `hasClient`
is `self.adk_client` truthiness. -/
def DataCleaningAgent.body
    (seriesMedian : List ℚ → Option ℚ) (seriesMode : List Cell → Option Cell)
    (jsonParse : String → Option String)
    (adkCall : DataSummary → Option String) (hasClient : Bool)
    (s : Store) (dfRef : Ref) :
    Except String CleaningPayload × Store :=
  let df := s.read dfRef
  let data_summary : DataSummary :=
    ⟨dfShape df, dtypesDict df, missingDict df, dupCount df⟩
  let adk_resp : Option String := if hasClient then adkCall data_summary else none
  let a := s.alloc df
  let cleanedRef := a.1
  let s1 := a.2
  let adk_recommendations : Option AdkRec :=
    match adk_resp with
    | some t =>
      if t = "" then none
      else some (match jsonParse t with
        | some j => AdkRec.parsed j
        | none => AdkRec.raw t)
    | none => none
  let numeric_cols := numericColNames (s1.read cleanedRef)
  let f1 := fillLoop (fun col c =>
      let m := seriesMedian (numValues c)
      (fillCells c (m.map Cell.num), CleanOp.fillMedian col m))
    cleanedRef numeric_cols s1 []
  let categorical_cols := objectColNames (f1.1.read cleanedRef)
  let f2 := fillLoop (fun col c =>
      let mv := (seriesMode (nonNullCells c)).getD (Cell.str "Unknown")
      (fillCells c (some mv), CleanOp.fillMode col mv))
    cleanedRef categorical_cols f1.1 f1.2
  let duplicates := dupCount (f2.1.read cleanedRef)
  let final :=
    if 0 < duplicates then
      let a2 := (f2.1).alloc (dropDuplicates (f2.1.read cleanedRef))
      (a2.1, a2.2, f2.2 ++ [CleanOp.removeDup duplicates])
    else (cleanedRef, f2.1, f2.2)
  let cleanedDf := final.2.1.read final.1
  (Except.ok ⟨cleanedDf,
    ⟨dfShape df, missingDict df, final.2.2, adk_recommendations,
     dfShape cleanedDf, missingDict cleanedDf⟩⟩, final.2.1)

/-- `DataCleaningAgent.execute`: run the body under `try:`; `except Exception
as e:` returns a failure envelope carrying `str(e)` and the elapsed time.  The
outer `Except` is the channel for an exception escaping `execute` itself;
`elapsed` is `time.time() - start` at whichever return executes. -/
def DataCleaningAgent.execute
    (seriesMedian : List ℚ → Option ℚ) (seriesMode : List Cell → Option Cell)
    (jsonParse : String → Option String)
    (adkCall : DataSummary → Option String) (hasClient : Bool)
    (elapsed : ℚ) (s : Store) (dfRef : Ref) :
    Except String (AgentResult CleaningPayload) × Store :=
  match DataCleaningAgent.body seriesMedian seriesMode jsonParse adkCall hasClient s dfRef with
  | (Except.ok payload, st) =>
    (Except.ok ⟨"Data Cleaning Agent", "success", some payload, elapsed, none⟩, st)
  | (Except.error e, st) =>
    (Except.ok ⟨"Data Cleaning Agent", "error", none, elapsed, some e⟩, st)

/-! ## ML agent (`project/agents/ml_model.py`) -/

/-- The `result` dict of `MLAgent.execute`.  `insights` keeps the top-3
(feature, score) pairs whose rendering into `"{feat} important (score=...)"`
strings is out-of-scope formatting. -/
structure MLPayload where
  model_type : String
  feature_importance : List (String × ℚ)
  target : Option String
  insights : List (String × ℚ)
  adk_insights : Option String
deriving Repr, DecidableEq

/-- Stable insertion step for descending order by score: the new element goes
after every already-placed element with a greater-or-equal score. -/
def insertDesc (x : String × ℚ) : List (String × ℚ) → List (String × ℚ)
  | [] => [x]
  | y :: rest => if x.2 ≤ y.2 then y :: insertDesc x rest else x :: y :: rest

/-- `dict(sorted(importances.items(), key=lambda x: x[1], reverse=True))`:
stable descending sort by importance score. -/
def sortByValueDesc (l : List (String × ℚ)) : List (String × ℚ) :=
  l.foldl (fun acc x => insertDesc x acc) []

/-- The categorical-encoding loop: `for col in
X_pre.select_dtypes(include=['object','category']).columns: X_pre[col] =
LabelEncoder().fit_transform(X_pre[col].astype(str))` — in-place column
assignment on the `X_pre` object with the sklearn encoder as parameter. -/
def encodeLoop (encode : Column → Column) (xp : Ref) :
    List String → Store → Store
  | [], s => s
  | col :: rest, s =>
    let df := s.read xp
    encodeLoop encode xp rest (s.write xp (setCol df col (encode (getCol df col))))

/-- Body of `MLAgent.execute` (the code under `try:`).  `fit` is the sklearn
model fit plus `feature_importances_` (the regressor/classifier choice on
`y.dtype` is internal to it); it receives `X_pre.fillna(0)` and `y.fillna(0)`
and may raise.  `adkCall` is the value `await self.call_adk(prompt,
sorted_imp)` resolves to (that coroutine catches internally and never
raises). -/
def MLAgent.body (encode : Column → Column)
    (fit : DataFrame → Column → Except String (List ℚ))
    (adkCall : List (String × ℚ) → Option String) (hasClient : Bool)
    (elapsed : ℚ) (s : Store) (dfRef : Ref) (target : Option String) :
    Except String (AgentResult MLPayload) × Store :=
  let df := s.read dfRef
  let numeric_names := numericColNames df
  let result0 : MLPayload := ⟨"feature_importance", [], none, [], none⟩
  let resolved : Option String :=
    match target with
    | none =>
      if numeric_names.length < 2 then none else some (numeric_names.headD "")
    | some t => some t
  match resolved with
  | none => (Except.ok ⟨"ML Agent", "success", some result0, elapsed, none⟩, s)
  | some tgt =>
    if tgt ∉ colNames df then
      (Except.ok ⟨"ML Agent", "error", none, elapsed,
        some ("Target column " ++ tgt ++ " not in dataframe")⟩, s)
    else
      let aX := s.alloc (dropCol df tgt)
      let y := getCol df tgt
      let aP := aX.2.alloc (aX.2.read aX.1)
      let xpRef := aP.1
      let s2 := aP.2
      let obj_cols := objectColNames (s2.read xpRef)
      let s3 := encodeLoop encode xpRef obj_cols s2
      match fit (fillZeroDf (s3.read xpRef)) (fillZeroCol y) with
      | Except.error e => (Except.error e, s3)
      | Except.ok importances =>
        let sorted_imp := sortByValueDesc ((colNames (s3.read xpRef)).zip importances)
        let insights := sorted_imp.take 3
        let adk := if hasClient then adkCall sorted_imp else none
        (Except.ok ⟨"ML Agent", "success",
          some ⟨"feature_importance", sorted_imp, some tgt, insights, adk⟩,
          elapsed, none⟩, s3)

/-- `MLAgent.execute`: the body's early returns pass through; an exception
raised inside the body (the sklearn fit) is caught by `except Exception as e:`
and converted into a failure envelope. -/
def MLAgent.execute (encode : Column → Column)
    (fit : DataFrame → Column → Except String (List ℚ))
    (adkCall : List (String × ℚ) → Option String) (hasClient : Bool)
    (elapsed : ℚ) (s : Store) (dfRef : Ref) (target : Option String) :
    Except String (AgentResult MLPayload) × Store :=
  match MLAgent.body encode fit adkCall hasClient elapsed s dfRef target with
  | (Except.ok r, st) => (Except.ok r, st)
  | (Except.error e, st) =>
    (Except.ok ⟨"ML Agent", "error", none, elapsed, some e⟩, st)

/-! ## Anomaly agent (`project/agents/anomaly.py`) -/

/-- One entry of `report['outliers_by_column']`. -/
structure OutlierInfo where
  count : Nat
  percentage : ℚ
  lower_bound : ℚ
  upper_bound : ℚ
  values : List ℚ
deriving Repr, DecidableEq

/-- The anomaly `report` dict; `anomaly_summary` keeps the structured
(column, count, percentage) content of the rendered summary strings. -/
structure AnomalyReport where
  outliers_by_column : List (String × OutlierInfo)
  anomaly_summary : List (String × Nat × ℚ)
  total_anomalies : Nat
  adk_insights : Option String
deriving Repr, DecidableEq

/-- Names bound at module level in `project/agents/anomaly.py`: the imports of
lines 3-7 (`time`, `json`, `numpy as np`, `pandas as pd`, `dataclass`), the
conditional SDK import (`genai`, `types`), the flag `ADK_AVAILABLE`, and the
two class definitions.  Notably the module never imports `safe_call_adk`. -/
def anomalyModuleGlobals : List String :=
  ["time", "json", "np", "pd", "dataclass", "genai", "types",
   "ADK_AVAILABLE", "AgentResult", "AnomalyAgent"]

/-- The `if self.adk_client:` block of `AnomalyAgent.execute`: evaluating
`safe_call_adk(self, adk_prompt, report['outliers_by_column'])` first resolves
the name `safe_call_adk`, which is unbound in this module, raising `NameError`;
the surrounding `except Exception:` sets `report['adk_insights'] = None`.
`wouldBe` is the value the retry wrapper would return were the name bound. -/
def anomalyAdkStep (hasClient : Bool) (wouldBe : Option String) : Option String :=
  if hasClient then
    if anomalyModuleGlobals.contains "safe_call_adk" then wouldBe else none
  else none

/-- Body of `AnomalyAgent.execute` (the code under `try:`): build the report
over the numeric columns, then attempt the ADK-insights block.  `colStats col`
is the out-of-scope IQR computation for one column: `some info` when
`len(outliers) > 0` (so an entry and a summary line are appended and the total
grows), `none` when no outliers were found. -/
def AnomalyAgent.body (colStats : String → Option OutlierInfo)
    (hasClient : Bool) (wouldBe : Option String) (df : DataFrame) :
    Except String AnomalyReport :=
  let base : AnomalyReport := ⟨[], [], 0, none⟩
  let rep := (numericColNames df).foldl (fun rep col =>
    match colStats col with
    | some info =>
      ⟨rep.outliers_by_column ++ [(col, info)],
       rep.anomaly_summary ++ [(col, info.count, info.percentage)],
       rep.total_anomalies + info.count,
       rep.adk_insights⟩
    | none => rep) base
  Except.ok { rep with adk_insights := anomalyAdkStep hasClient wouldBe }

/-- `AnomalyAgent.execute`: `try:` body, `except Exception as e:` failure
envelope with `str(e)`. -/
def AnomalyAgent.execute (colStats : String → Option OutlierInfo)
    (hasClient : Bool) (wouldBe : Option String) (elapsed : ℚ)
    (df : DataFrame) : Except String (AgentResult AnomalyReport) :=
  match AnomalyAgent.body colStats hasClient wouldBe df with
  | Except.ok rep =>
    Except.ok ⟨"Anomaly Detection Agent", "success", some rep, elapsed, none⟩
  | Except.error e =>
    Except.ok ⟨"Anomaly Detection Agent", "error", none, elapsed, some e⟩

/-! ## EDA agent (`project/agents/eda.py`) -/

/-- The `eda_report` dict.  `basic_stats` (the `df.describe` table),
correlation entries and base64 chart payloads are carried abstractly; their
numeric content is out-of-scope statistics/rendering. -/
structure EDAReport where
  basic_stats : List (String × String)
  data_types : List (String × Dtype)
  correlations : List ((String × String) × ℚ)
  visualizations : List (String × String)
  adk_insights : Option String
deriving Repr, DecidableEq

/-- Body of `EDAAgent.execute` (the code under `try:`): compute
`df.describe(include='all')` (may raise, e.g. on an empty frame), the dtype
dict, the correlation matrix and heatmap only when more than one numeric
column exists, a distribution plot for the first three numeric columns, then
the ADK insights (`self.call_adk` catches internally and never raises, so the
inner `try` contributes `adkCall` directly).  `describe`, `corr`, `heatmap`
and `distPlot` are the out-of-scope pandas/matplotlib computations, each able
to raise. -/
def EDAAgent.body
    (describe : Except String (List (String × String)))
    (corr : Except String (List ((String × String) × ℚ)))
    (heatmap : Except String String)
    (distPlot : String → Except String String)
    (adkCall : Option String) (hasClient : Bool)
    (df : DataFrame) : Except String EDAReport := do
  let stats ← describe
  let numeric_names := numericColNames df
  let cv ←
    if 1 < numeric_names.length then do
      let cm ← corr
      let hm ← heatmap
      pure (cm, [("correlation_heatmap", hm)])
    else pure ([], [])
  let viz ← (numeric_names.take 3).foldlM (fun acc col => do
      let d ← distPlot col
      pure (acc ++ [("distribution_" ++ col, d)])) cv.2
  pure ⟨stats, dtypesDict df, cv.1, viz, if hasClient then adkCall else none⟩

/-- `EDAAgent.execute`: `try:` body, `except Exception as e:` failure envelope
with `str(e)`. -/
def EDAAgent.execute
    (describe : Except String (List (String × String)))
    (corr : Except String (List ((String × String) × ℚ)))
    (heatmap : Except String String)
    (distPlot : String → Except String String)
    (adkCall : Option String) (hasClient : Bool) (elapsed : ℚ)
    (df : DataFrame) : Except String (AgentResult EDAReport) :=
  match EDAAgent.body describe corr heatmap distPlot adkCall hasClient df with
  | Except.ok rep => Except.ok ⟨"EDA Agent", "success", some rep, elapsed, none⟩
  | Except.error e => Except.ok ⟨"EDA Agent", "error", none, elapsed, some e⟩

/-! ## Business insights agent (`project/agents/insights.py`) -/

/-- The `insights` dict of `BusinessInsightsAgent.execute` in its final shape. -/
structure InsightsPayload where
  executive_summary : String
  key_findings : List String
  recommendations : List String
  adk_insights : String
  adk_insights_structured : List (String × List String)
deriving Repr, DecidableEq

/-- `BusinessInsightsAgent.execute`: the body under `try:` aggregates prior
envelopes into business-level text (context preparation, ADK text splitting,
fallback summaries) — business-level interpretation of payloads that the core
explicitly does not constrain (spec non-goals), so the body is carried as its
outcome `body`; the containment structure is translated: a body exception is
caught by `except Exception as e:` and becomes a failure envelope with
`str(e)`. -/
def BusinessInsightsAgent.execute (body : Except String InsightsPayload)
    (elapsed : ℚ) : Except String (AgentResult InsightsPayload) :=
  match body with
  | Except.ok p =>
    Except.ok ⟨"Business Insights Agent", "success", some p, elapsed, none⟩
  | Except.error e =>
    Except.ok ⟨"Business Insights Agent", "error", none, elapsed, some e⟩

/-! ## Report agent (`project/agents/report.py`) -/

/-- The success payload `{'pdf_path': pdf_path}`. -/
structure ReportPayload where
  pdf_path : String
deriving Repr, DecidableEq

/-- `ReportAgent.execute`: `pdf_path = await self._generate_pdf_report(...)`
(PDF rendering is out of scope; `pdfGen` is its outcome, raising or returning
the path string), then a success envelope `data={'pdf_path': pdf_path}`;
`except Exception as e:` yields the failure envelope. -/
def ReportAgent.execute (pdfGen : Except String String) (elapsed : ℚ) :
    Except String (AgentResult ReportPayload) :=
  match pdfGen with
  | Except.ok p =>
    Except.ok ⟨"Report Generation Agent", "success", some ⟨p⟩, elapsed, none⟩
  | Except.error e =>
    Except.ok ⟨"Report Generation Agent", "error", none, elapsed, some e⟩

/-! ## Pipeline orchestrator (`project/main.py`, `run_pipeline`) -/

/-- A gathered task outcome: either the envelope the coroutine returned, or the
exception (`str(res)`) it raised, which `asyncio.gather(...,
return_exceptions=True)` delivers as a value. -/
abbrev TaskOutcome (α : Type) := Except String (AgentResult α)

/-- `zip(keys, completed)` followed by the synthesis loop of lines 102-107:
an exception entry becomes a synthesized failure envelope under its key, an
envelope entry is stored unchanged. -/
def assemblePhase1 (α : Type) (keys : List String)
    (completed : List (TaskOutcome α)) : List (String × AgentResult α) :=
  (keys.zip completed).map (fun kr =>
    match kr.2 with
    | Except.error e => (kr.1, synthEnvelope α kr.1 e)
    | Except.ok r => (kr.1, r))

/-- `asyncio.gather(*tasks.values(), return_exceptions=True)`: the scheduler
receives completions in arbitrary real-time order — `completions` lists
(task index, outcome) pairs in completion order — and delivers the outcome
list in argument (registration) order. -/
def gatherOutcomes (α : Type) (n : Nat)
    (completions : List (Nat × TaskOutcome α)) : List (TaskOutcome α) :=
  (List.range n).filterMap (fun i => completions.lookup i)

/-- One fan-out/fan-in phase as `run_pipeline` runs it for phase 1: gather the
completions back into registration order, then assemble the keyed result
mapping. -/
def run_phase (α : Type) (keys : List String)
    (completions : List (Nat × TaskOutcome α)) : List (String × AgentResult α) :=
  assemblePhase1 α keys (gatherOutcomes α keys.length completions)

/-- The completion list of a run in which task `i` finishes with outcome `f i`,
enumerated in registration order (one admissible completion order; any other
is a permutation of this list). -/
def registrationCompletions (α : Type) (f : Nat → TaskOutcome α) (n : Nat) :
    List (Nat × TaskOutcome α) :=
  (List.range n).map (fun i => (i, f i))

/-- The phase-1 task keys of `run_pipeline`, in registration order. -/
def pipelineKeys : List String := ["cleaning", "eda", "anomaly", "ml"]

/-- The value `run_pipeline` returns:
`{'agent_results': results, 'insights': insights, 'report': report}`. -/
structure RunResult (α : Type) where
  agent_results : List (String × AgentResult α)
  insights : AgentResult α
  report : AgentResult α
deriving Repr, DecidableEq

/-- `run_pipeline` from the phase-1 gather onward (lines 99-123); the loading
and agent construction above are out-of-scope ingestion.  Phase 1 outcomes
arrive through `completions`; `insightsOutcome` and `reportOutcome` are the
phase-2/3 coroutine results, awaited bare — an exception there propagates out
of `run_pipeline` (outer `Except.error`).  After the phase-3 print, line 122
evaluates `report.data.get('pdf_path')`: when the report envelope carries
`data=None` this raises `AttributeError`, aborting the run before `return`. -/
def run_pipeline (α : Type) (completions : List (Nat × TaskOutcome α))
    (insightsOutcome : TaskOutcome α) (reportOutcome : TaskOutcome α) :
    Except String (RunResult α) :=
  let results := run_phase α pipelineKeys completions
  match insightsOutcome with
  | Except.error e => Except.error e
  | Except.ok insights =>
    match reportOutcome with
    | Except.error e => Except.error e
    | Except.ok report =>
      match report.data with
      | none => Except.error "AttributeError: NoneType object has no attribute get"
      | some _ => Except.ok ⟨results, insights, report⟩

/-- The untyped Python result dict can hold any agent payload; the per-agent
payloads are injected into one sum for pipeline-level statements. -/
inductive PipeData where
  | cleaning (p : CleaningPayload)
  | eda (p : EDAReport)
  | anomaly (p : AnomalyReport)
  | ml (p : MLPayload)
  | insights (p : InsightsPayload)
  | report (p : ReportPayload)
deriving Repr, DecidableEq

/-- Repackage an envelope's payload (identity on every other field; Python
needs no such step, the dict being untyped). -/
def AgentResult.mapData (α β : Type) (g : α → β) (r : AgentResult α) :
    AgentResult β :=
  ⟨r.agent_name, r.status, r.data.map g, r.execution_time, r.error⟩

/-! ## Theorems -/

/-- Helper: when the operation always comes back empty, the retry loop starting
anywhere returns `None` and performs one call per remaining iteration. -/
theorem safe_call_adk_from_all_none (op : Nat → Option String) (jitter : Nat → ℚ)
    (base : ℚ) (h : ∀ k, op k = none) :
    ∀ remaining attempt,
      (safe_call_adk_from op jitter base attempt remaining).returned = none ∧
      (safe_call_adk_from op jitter base attempt remaining).calls = remaining := by
  intro remaining
  induction remaining with
  | zero => intro attempt; exact ⟨rfl, rfl⟩
  | succ n ih =>
    intro attempt
    simp only [safe_call_adk_from, h attempt]
    exact ⟨(ih (attempt + 1)).1, by simp [(ih (attempt + 1)).2]⟩

/-- Helper: the delay recorded for the `k`-th failed attempt of a loop that
started at `attempt` is exactly `base * 2 ^ (attempt + k) + jitter (attempt + k)`. -/
theorem safe_call_adk_from_delays (op : Nat → Option String) (jitter : Nat → ℚ)
    (base : ℚ) :
    ∀ remaining attempt k,
      k < (safe_call_adk_from op jitter base attempt remaining).delays.length →
      (safe_call_adk_from op jitter base attempt remaining).delays.getD k 0 =
        base * 2 ^ (attempt + k) + jitter (attempt + k) := by
  intro remaining
  induction remaining with
  | zero => intro attempt k hk; simp [safe_call_adk_from] at hk
  | succ n ih =>
    intro attempt k hk
    cases hop : op attempt with
    | some r => simp only [safe_call_adk_from, hop] at hk; simp at hk
    | none =>
      simp only [safe_call_adk_from, hop] at hk ⊢
      simp only [List.length_cons] at hk
      cases k with
      | zero => simp
      | succ m =>
        have hm : m < (safe_call_adk_from op jitter base (attempt + 1) n).delays.length := by
          simpa using Nat.lt_of_succ_lt_succ hk
        have He : attempt + 1 + m = attempt + (m + 1) := by omega
        simpa [He] using ih (attempt + 1) m hm

/-- Helper: a retry loop with at least one iteration left calls the operation
at least once. -/
theorem safe_call_adk_from_calls_pos (op : Nat → Option String) (jitter : Nat → ℚ)
    (base : ℚ) (attempt n : Nat) (h : 0 < n) :
    1 ≤ (safe_call_adk_from op jitter base attempt n).calls := by
  cases n with
  | zero => omega
  | succ m =>
    simp only [safe_call_adk_from]
    cases hop : op attempt with
    | some r => simp
    | none => simp

/-- C3: for an operation that always returns an empty (absent) result and any
retry budget, `safe_call_adk` calls the operation exactly `retries` times and
then returns `None`; being a total function of its inputs, it cannot raise. -/
theorem retry_exhaustion_returns_none_after_exactly_retries_calls
    (op : Nat → Option String) (jitter : Nat → ℚ) (retries : Nat) (base : ℚ)
    (h : ∀ k, op k = none) :
    (safe_call_adk op jitter retries base).returned = none ∧
    (safe_call_adk op jitter retries base).calls = retries :=
  safe_call_adk_from_all_none op jitter base h retries 0

/-- Witness for C3 at a concrete always-empty operation and `retries = 3`. -/
theorem retry_exhaustion_witness :
    (safe_call_adk (fun _ => none) (fun _ => 0) 3 5).returned = none ∧
    (safe_call_adk (fun _ => none) (fun _ => 0) 3 5).calls = 3 :=
  retry_exhaustion_returns_none_after_exactly_retries_calls
    (fun _ => none) (fun _ => 0) 3 5 (fun _ => rfl)

/-- C4 counterexample: an operation that returns the empty string is *not*
retried — `safe_call_adk` hands the empty string back as a success after a
single call, because the loop tests `result is not None`, not emptiness. -/
theorem empty_string_response_returned_immediately :
    safe_call_adk (fun _ => some "") (fun _ => 0) 5 5 =
      ⟨some "", 1, []⟩ := rfl

/-- C4 amended: the invoker returns immediately exactly when the operation
yields a present (non-`None`) response — the empty string included — and
retries only when the response is absent. -/
theorem retry_only_on_absent_result
    (op : Nat → Option String) (jitter : Nat → ℚ) (retries : Nat) (base : ℚ)
    (h : 0 < retries) :
    (∀ s, op 0 = some s →
      safe_call_adk op jitter retries base = ⟨some s, 1, []⟩) ∧
    (op 0 = none → 2 ≤ retries →
      2 ≤ (safe_call_adk op jitter retries base).calls) := by
  cases retries with
  | zero => omega
  | succ n =>
    constructor
    · intro s hs
      simp [safe_call_adk, safe_call_adk_from, hs]
    · intro h0 h2
      simp only [safe_call_adk, safe_call_adk_from, h0]
      have : 1 ≤ (safe_call_adk_from op jitter base 1 n).calls :=
        safe_call_adk_from_calls_pos op jitter base 1 n (by omega)
      simpa using this

/-- Witness for C4's amended theorem: an operation whose first response is the
empty string is returned as a success after exactly one call. -/
theorem retry_only_on_absent_result_witness :
    safe_call_adk (fun _ => some "") (fun _ => 1) 3 5 = ⟨some "", 1, []⟩ :=
  (retry_only_on_absent_result (fun _ => some "") (fun _ => 1) 3 5
    (by decide)).1 "" rfl

/-- C5: the delay slept after failed attempt `k` is exactly
`base_delay * 2 ^ k` plus the jitter drawn there; with the jitter drawn from
`random.random()`'s range `[0, 1)` the delay is therefore at least
`base_delay * 2 ^ k` — jitter only adds. -/
theorem backoff_delay_formula_and_monotonicity
    (op : Nat → Option String) (jitter : Nat → ℚ) (retries : Nat) (base : ℚ)
    (k : Nat) (hj : ∀ i, 0 ≤ jitter i ∧ jitter i < 1)
    (hk : k < (safe_call_adk op jitter retries base).delays.length) :
    (safe_call_adk op jitter retries base).delays.getD k 0 =
      base * 2 ^ k + jitter k ∧
    base * 2 ^ k ≤ (safe_call_adk op jitter retries base).delays.getD k 0 := by
  simp only [safe_call_adk] at hk ⊢
  have He := safe_call_adk_from_delays op jitter base retries 0 k hk
  simp only [Nat.zero_add] at He
  refine ⟨He, ?_⟩
  rw [He]
  exact le_add_of_nonneg_right (hj k).1

/-- Witness for C5 at `base_delay = 5`, jitter constantly `1/2`, an always-empty
operation and `k = 1`: the recorded delay is `5 * 2 + 1/2` and at least `5 * 2`. -/
theorem backoff_delay_witness :
    (safe_call_adk (fun _ => none) (fun _ => 1/2) 3 5).delays.getD 1 0 =
      5 * 2 ^ 1 + 1 / 2 ∧
    (5 : ℚ) * 2 ^ 1 ≤ (safe_call_adk (fun _ => none) (fun _ => 1/2) 3 5).delays.getD 1 0 :=
  backoff_delay_formula_and_monotonicity (fun _ => none) (fun _ => 1/2) 3 5 1
    (fun _ => by norm_num) (by decide)

/-- Helper: looking up a present key in an association list with distinct keys
finds its value. -/
theorem lookup_eq_of_mem_nodupkeys {β : Type} (l : List (Nat × β)) (k : Nat) (v : β)
    (hm : (k, v) ∈ l) (hn : (l.map Prod.fst).Nodup) : l.lookup k = some v := by
  induction l with
  | nil => simp at hm
  | cons p rest ih =>
    simp only [List.map_cons, List.nodup_cons] at hn
    rcases List.mem_cons.mp hm with h | h
    · rw [← h]
      simp [List.lookup]
    · have hk : k ∈ rest.map Prod.fst := List.mem_map.mpr ⟨(k, v), h, rfl⟩
      have hne : (k == p.1) = false := by
        rcases Nat.decEq k p.1 with hne | he
        · exact beq_false_of_ne hne
        · exact absurd (he ▸ hk) hn.1
      cases p with
      | mk a b =>
        simp only [List.lookup, hne]
        exact ih h hn.2

/-- Helper: a completion list that is a permutation of the per-task outcome
enumeration looks up each task index to its outcome. -/
theorem lookup_of_perm_registration (α : Type) (f : Nat → TaskOutcome α) (n : Nat)
    (c : List (Nat × TaskOutcome α))
    (hp : c.Perm (registrationCompletions α f n)) (i : Nat) (hi : i < n) :
    c.lookup i = some (f i) := by
  have hm : (i, f i) ∈ c := by
    refine hp.mem_iff.mpr ?_
    unfold registrationCompletions
    exact List.mem_map.mpr ⟨i, List.mem_range.mpr hi, rfl⟩
  have hfst : (c.map Prod.fst).Perm (List.range n) := by
    have h1 := hp.map Prod.fst
    have h2 : (registrationCompletions α f n).map Prod.fst = List.range n := by
      unfold registrationCompletions
      simp [Function.comp_def]
    rwa [h2] at h1
  have hn : (c.map Prod.fst).Nodup := hfst.nodup_iff.mpr (List.nodup_range n)
  exact lookup_eq_of_mem_nodupkeys c i (f i) hm hn

/-- Helper: a list whose elements all map to `some` under `g` filter-maps to
the plain map. -/
theorem filterMap_eq_map_of_forall {γ β : Type} (l : List γ) (g : γ → Option β)
    (h : γ → β) (hg : ∀ x ∈ l, g x = some (h x)) : l.filterMap g = l.map h := by
  induction l with
  | nil => rfl
  | cons a rest ih =>
    simp only [List.filterMap_cons, hg a (by simp), List.map_cons]
    exact congrArg _ (ih (fun x hx => hg x (by simp [hx])))

/-- Helper: gathering any admissible completion order of the outcomes `f`
yields the outcomes in registration order, as `asyncio.gather` guarantees. -/
theorem gather_of_perm (α : Type) (f : Nat → TaskOutcome α) (n : Nat)
    (c : List (Nat × TaskOutcome α))
    (hp : c.Perm (registrationCompletions α f n)) :
    gatherOutcomes α n c = (List.range n).map f := by
  unfold gatherOutcomes
  exact filterMap_eq_map_of_forall (List.range n) (fun i => c.lookup i) f
    (fun i hi => lookup_of_perm_registration α f n c hp i (List.mem_range.mp hi))

/-- Helper: the assembled phase mapping keeps exactly the registration keys. -/
theorem assemblePhase1_map_fst (α : Type) (keys : List String)
    (completed : List (TaskOutcome α)) (h : keys.length ≤ completed.length) :
    (assemblePhase1 α keys completed).map Prod.fst = keys := by
  unfold assemblePhase1
  rw [List.map_map]
  have hc : (Prod.fst ∘ fun kr : String × TaskOutcome α =>
      match kr.2 with
      | Except.error e => (kr.1, synthEnvelope α kr.1 e)
      | Except.ok r => (kr.1, r)) = Prod.fst := by
    funext kr
    rcases kr with ⟨k, o⟩
    cases o <;> rfl
  rw [hc]
  exact List.map_fst_zip keys completed h

/-- C6: the key ordering of a Phase Result Set is determined solely by
registration order — two runs of the same phase whose tasks complete in
different real-time orders (any two permutations of the same task-outcome
enumeration) produce identical result sets, keyed in registration order. -/
theorem phase_result_order_deterministic (α : Type) (keys : List String)
    (f : Nat → TaskOutcome α) (c1 c2 : List (Nat × TaskOutcome α))
    (h1 : c1.Perm (registrationCompletions α f keys.length))
    (h2 : c2.Perm (registrationCompletions α f keys.length)) :
    run_phase α keys c1 = run_phase α keys c2 ∧
    (run_phase α keys c1).map Prod.fst = keys := by
  unfold run_phase
  rw [gather_of_perm α f keys.length c1 h1, gather_of_perm α f keys.length c2 h2]
  exact ⟨rfl, assemblePhase1_map_fst α keys _ (by simp)⟩

/-- Witness for C6: the four pipeline tasks completing in registration order
and in fully reversed order assemble to the same result set, keyed
`cleaning, eda, anomaly, ml`. -/
theorem phase_result_order_witness :
    run_phase Unit pipelineKeys
        (registrationCompletions Unit
          (fun _ => Except.ok ⟨"x", "success", some (), 0, none⟩) pipelineKeys.length) =
      run_phase Unit pipelineKeys
        (registrationCompletions Unit
          (fun _ => Except.ok ⟨"x", "success", some (), 0, none⟩) pipelineKeys.length).reverse ∧
    (run_phase Unit pipelineKeys
        (registrationCompletions Unit
          (fun _ => Except.ok ⟨"x", "success", some (), 0, none⟩) pipelineKeys.length)).map
        Prod.fst = pipelineKeys :=
  phase_result_order_deterministic Unit pipelineKeys
    (fun _ => Except.ok ⟨"x", "success", some (), 0, none⟩) _ _
    (List.Perm.refl _) (List.reverse_perm _)

/-- C2 counterexample: in the Aggregation stage (phase 2) the single task is
awaited bare — a fault escaping `insights_agent.execute` crashes
`run_pipeline` itself: no Result Set is produced and no Failure envelope is
synthesized, contrary to the claim's "for every phase". -/
theorem aggregation_stage_fault_crashes_orchestrator :
    run_pipeline Unit
      (registrationCompletions Unit
        (fun _ => Except.ok ⟨"x", "success", some (), 0, none⟩) 4)
      (Except.error "ValueError: boom")
      (Except.ok ⟨"Report Generation Agent", "success", some (), 0, none⟩) =
      Except.error "ValueError: boom" := rfl

/-- C2 amended: in the Independent stage (phase 1), which runs through
`asyncio.gather(..., return_exceptions=True)`, the scheduler survives any
task fault: the Phase Result Set still has one entry per task, a task whose
execution raised `e` is recorded under its key as a synthesized Failure
envelope with error `e` and duration exactly zero, and every task that
returned an envelope keeps it unchanged.  In the Aggregation and Synthesis
stages an escaping fault instead propagates out of the orchestrator. -/
theorem phase1_isolation (α : Type) (keys : List String) (f : Nat → TaskOutcome α)
    (i : Nat) (hi : i < keys.length) :
    (run_phase α keys (registrationCompletions α f keys.length)).length = keys.length ∧
    (∀ e, f i = Except.error e →
      (run_phase α keys (registrationCompletions α f keys.length)).getD i
          ("", synthEnvelope α "" "") =
        (keys.getD i "", ⟨keys.getD i "", "error", none, 0, some e⟩)) ∧
    (∀ r, f i = Except.ok r →
      (run_phase α keys (registrationCompletions α f keys.length)).getD i
          ("", synthEnvelope α "" "") =
        (keys.getD i "", r)) := by
  have hg : run_phase α keys (registrationCompletions α f keys.length) =
      assemblePhase1 α keys ((List.range keys.length).map f) := by
    unfold run_phase
    rw [gather_of_perm α f keys.length _ (List.Perm.refl _)]
  have hlen : (assemblePhase1 α keys ((List.range keys.length).map f)).length =
      keys.length := by
    unfold assemblePhase1
    simp
  have hia : i < (assemblePhase1 α keys ((List.range keys.length).map f)).length := by
    omega
  have hkey : keys.getD i "" = keys.get ⟨i, hi⟩ := by
    simp [List.getD_eq_getElem?_getD, List.getElem?_eq_getElem hi]
  have hval : (assemblePhase1 α keys ((List.range keys.length).map f)).getD i
      ("", synthEnvelope α "" "") =
      (match f i with
       | Except.error e => (keys.get ⟨i, hi⟩, synthEnvelope α (keys.get ⟨i, hi⟩) e)
       | Except.ok r => (keys.get ⟨i, hi⟩, r)) := by
    rw [List.getD_eq_getElem _ _ hia]
    unfold assemblePhase1
    simp [List.getElem_zip, List.getElem_map, List.getElem_range]
  refine ⟨by rw [hg]; exact hlen, ?_, ?_⟩
  · intro e he
    rw [hg, hval, he, hkey]
    rfl
  · intro r hr
    rw [hg, hval, hr, hkey]

/-- Witness for C2's amended theorem: four tasks where task 1 (`eda`) raises
`IndexError: boom` and task 0 returns an envelope — the result set has four
entries, entry 1 is the synthesized zero-duration failure, entry 0 is the
returned envelope unchanged. -/
theorem phase1_isolation_witness :
    (run_phase Unit pipelineKeys
      (registrationCompletions Unit
        (fun j => if j = 1 then Except.error "IndexError: boom"
          else Except.ok ⟨"x", "success", some (), 0, none⟩)
        pipelineKeys.length)).length = pipelineKeys.length ∧
    (run_phase Unit pipelineKeys
      (registrationCompletions Unit
        (fun j => if j = 1 then Except.error "IndexError: boom"
          else Except.ok ⟨"x", "success", some (), 0, none⟩)
        pipelineKeys.length)).getD 1 ("", synthEnvelope Unit "" "") =
      ("eda", ⟨"eda", "error", none, 0, some "IndexError: boom"⟩) ∧
    (run_phase Unit pipelineKeys
      (registrationCompletions Unit
        (fun j => if j = 1 then Except.error "IndexError: boom"
          else Except.ok ⟨"x", "success", some (), 0, none⟩)
        pipelineKeys.length)).getD 0 ("", synthEnvelope Unit "" "") =
      ("cleaning", ⟨"x", "success", some (), 0, none⟩) :=
  ⟨(phase1_isolation Unit pipelineKeys
      (fun j => if j = 1 then Except.error "IndexError: boom"
        else Except.ok ⟨"x", "success", some (), 0, none⟩) 1 (by decide)).1,
   (phase1_isolation Unit pipelineKeys
      (fun j => if j = 1 then Except.error "IndexError: boom"
        else Except.ok ⟨"x", "success", some (), 0, none⟩) 1 (by decide)).2.1
      "IndexError: boom" rfl,
   (phase1_isolation Unit pipelineKeys
      (fun j => if j = 1 then Except.error "IndexError: boom"
        else Except.ok ⟨"x", "success", some (), 0, none⟩) 0 (by decide)).2.2
      ⟨"x", "success", some (), 0, none⟩ rfl⟩

/-- C1: evaluation of `run_pipeline` at the failing input.  When PDF
generation raises, `ReportAgent.execute` contains the fault and returns a
Failure envelope (`data=None`) exactly as the task contract demands — but
`run_pipeline` then aborts with `AttributeError` at the final
`report.data.get('pdf_path')` print (line 122) instead of returning the full
Result Set, so a Failure envelope from the Synthesis-stage task does prevent
`run` from returning. -/
theorem run_pipeline_crashes_on_report_failure :
    ReportAgent.execute (Except.error "reportlab: cannot write PDF") 2 =
      Except.ok ⟨"Report Generation Agent", "error", none, 2,
        some "reportlab: cannot write PDF"⟩ ∧
    run_pipeline PipeData
      (registrationCompletions PipeData
        (fun _ => Except.ok
          ⟨"x", "success", some (PipeData.report ⟨"p.pdf"⟩), 0, none⟩) 4)
      (Except.ok ⟨"Business Insights Agent", "success",
        some (PipeData.insights ⟨"s", [], [], "s", []⟩), 1, none⟩)
      (Except.ok (AgentResult.mapData ReportPayload PipeData PipeData.report
        ⟨"Report Generation Agent", "error", none, 2,
          some "reportlab: cannot write PDF"⟩)) =
      Except.error "AttributeError: NoneType object has no attribute get" :=
  ⟨rfl, rfl⟩

/-- C10: with a configured ADK client, `AnomalyAgent.execute` always returns a
success envelope whose `adk_insights` is `None`, whatever the dataframe, the
detected outliers, or the value the retry wrapper would have produced — the
reference to `safe_call_adk` raises `NameError` (the name is unbound in
`anomaly.py`) and the inner handler swallows it, so the retrying external call
never happens and no model-generated insight is ever attached. -/
theorem anomaly_adk_insights_always_none
    (colStats : String → Option OutlierInfo) (wouldBe : Option String)
    (elapsed : ℚ) (df : DataFrame) :
    ∃ rep : AnomalyReport,
      AnomalyAgent.execute colStats true wouldBe elapsed df =
        Except.ok ⟨"Anomaly Detection Agent", "success", some rep, elapsed, none⟩ ∧
      rep.adk_insights = none := by
  have hc : anomalyModuleGlobals.contains "safe_call_adk" = false := by decide
  have hstep : anomalyAdkStep true wouldBe = none := by
    unfold anomalyAdkStep
    rw [hc]
    simp
  exact ⟨_, rfl, hstep⟩

/-- Helper: a success-shaped envelope is well formed. -/
theorem envelopeOk_success {α : Type} (n : String) (p : α) (t : ℚ) :
    envelopeOk (⟨n, "success", some p, t, none⟩ : AgentResult α) :=
  ⟨Or.inl rfl, fun _ => ⟨rfl, rfl⟩,
   fun h => absurd h (by decide : ¬ ("success" : String) = "error")⟩

/-- Helper: a failure-shaped envelope is well formed. -/
theorem envelopeOk_error {α : Type} (n : String) (t : ℚ) (e : String) :
    envelopeOk (⟨n, "error", none, t, some e⟩ : AgentResult α) :=
  ⟨Or.inr rfl, fun h => absurd h (by decide : ¬ ("error" : String) = "success"),
   fun _ => ⟨rfl, rfl⟩⟩

/-- C7 counterexample: a phase-1 task raising a fault whose description is the
empty string (e.g. `raise ValueError()`, for which `str(res) == ''`) makes the
scheduler synthesize a Failure envelope whose error field is the *empty*
string — present but empty, so not every failure envelope carries a non-empty
error description. -/
theorem scheduler_synthesizes_empty_error_description :
    run_phase Unit ["cleaning"] [(0, Except.error "")] =
      [("cleaning", ⟨"cleaning", "error", none, 0, some ""⟩)] ∧
    ¬ envelopeStrictOk (synthEnvelope Unit "cleaning" "") :=
  ⟨rfl, by decide⟩

/-- Helper: every envelope the ML body returns through an early or final
`return` (auto-target success, invalid-target failure, fit success) is well
formed. -/
theorem ml_body_ok_env (encode : Column → Column)
    (fit : DataFrame → Column → Except String (List ℚ))
    (ac : List (String × ℚ) → Option String) (hc : Bool) (el : ℚ)
    (s : Store) (r : Ref) (target : Option String)
    (p : AgentResult MLPayload) (st : Store)
    (hb : MLAgent.body encode fit ac hc el s r target = (Except.ok p, st)) :
    envelopeOk p := by
  simp only [MLAgent.body] at hb
  split at hb
  · simp only [Prod.mk.injEq, Except.ok.injEq] at hb
    rw [← hb.1]
    exact envelopeOk_success _ _ _
  · split at hb
    · simp only [Prod.mk.injEq, Except.ok.injEq] at hb
      rw [← hb.1]
      exact envelopeOk_error _ _ _
    · split at hb
      · simp only [Prod.mk.injEq] at hb
        exact absurd hb.1 (by simp)
      · simp only [Prod.mk.injEq, Except.ok.injEq] at hb
        rw [← hb.1]
        exact envelopeOk_success _ _ _

/-- C7 amended: every Result Envelope produced anywhere in the pipeline — by
any agent's `execute` under any behaviour of its collaborators, or synthesized
by the scheduler — has status in {success, error} and exactly one of
`data`/`error` populated, consistently with the status; the error description
of a failure envelope is present but may be the empty string when the fault's
description is empty. -/
theorem every_produced_envelope_well_formed :
    (∀ (sm : List ℚ → Option ℚ) (smo : List Cell → Option Cell)
        (jp : String → Option String) (ac : DataSummary → Option String)
        (hc : Bool) (el : ℚ) (s : Store) (r : Ref)
        (env : AgentResult CleaningPayload) (s2 : Store),
      DataCleaningAgent.execute sm smo jp ac hc el s r = (Except.ok env, s2) →
      envelopeOk env) ∧
    (∀ (encode : Column → Column)
        (fit : DataFrame → Column → Except String (List ℚ))
        (ac : List (String × ℚ) → Option String) (hc : Bool) (el : ℚ)
        (s : Store) (r : Ref) (target : Option String)
        (env : AgentResult MLPayload) (s2 : Store),
      MLAgent.execute encode fit ac hc el s r target = (Except.ok env, s2) →
      envelopeOk env) ∧
    (∀ (describe : Except String (List (String × String)))
        (corr : Except String (List ((String × String) × ℚ)))
        (heatmap : Except String String)
        (distPlot : String → Except String String)
        (ac : Option String) (hc : Bool) (el : ℚ) (df : DataFrame)
        (env : AgentResult EDAReport),
      EDAAgent.execute describe corr heatmap distPlot ac hc el df =
        Except.ok env → envelopeOk env) ∧
    (∀ (colStats : String → Option OutlierInfo) (hc : Bool)
        (wouldBe : Option String) (el : ℚ) (df : DataFrame)
        (env : AgentResult AnomalyReport),
      AnomalyAgent.execute colStats hc wouldBe el df = Except.ok env →
      envelopeOk env) ∧
    (∀ (body : Except String InsightsPayload) (el : ℚ)
        (env : AgentResult InsightsPayload),
      BusinessInsightsAgent.execute body el = Except.ok env → envelopeOk env) ∧
    (∀ (pdfGen : Except String String) (el : ℚ)
        (env : AgentResult ReportPayload),
      ReportAgent.execute pdfGen el = Except.ok env → envelopeOk env) ∧
    (∀ (α : Type) (k d : String), envelopeOk (synthEnvelope α k d)) := by
  refine ⟨?_, ?_, ?_, ?_, ?_, ?_, ?_⟩
  · intro sm smo jp ac hc el s r env s2 h
    unfold DataCleaningAgent.execute at h
    rcases hb : DataCleaningAgent.body sm smo jp ac hc s r with ⟨bo, st⟩
    rw [hb] at h
    rcases bo with e | p
    · simp only [Prod.mk.injEq, Except.ok.injEq] at h
      rw [← h.1]
      exact envelopeOk_error _ _ _
    · simp only [Prod.mk.injEq, Except.ok.injEq] at h
      rw [← h.1]
      exact envelopeOk_success _ _ _
  · intro encode fit ac hc el s r target env s2 h
    unfold MLAgent.execute at h
    rcases hb : MLAgent.body encode fit ac hc el s r target with ⟨bo, st⟩
    rw [hb] at h
    rcases bo with e | p
    · simp only [Prod.mk.injEq, Except.ok.injEq] at h
      rw [← h.1]
      exact envelopeOk_error _ _ _
    · simp only [Prod.mk.injEq, Except.ok.injEq] at h
      rw [← h.1]
      exact ml_body_ok_env encode fit ac hc el s r target p st hb
  · intro describe corr heatmap distPlot ac hc el df env h
    unfold EDAAgent.execute at h
    rcases hb : EDAAgent.body describe corr heatmap distPlot ac hc df with e | p
    · rw [hb] at h
      simp only [Except.ok.injEq] at h
      rw [← h]
      exact envelopeOk_error _ _ _
    · rw [hb] at h
      simp only [Except.ok.injEq] at h
      rw [← h]
      exact envelopeOk_success _ _ _
  · intro colStats hc wouldBe el df env h
    unfold AnomalyAgent.execute at h
    rcases hb : AnomalyAgent.body colStats hc wouldBe df with e | p
    · rw [hb] at h
      simp only [Except.ok.injEq] at h
      rw [← h]
      exact envelopeOk_error _ _ _
    · rw [hb] at h
      simp only [Except.ok.injEq] at h
      rw [← h]
      exact envelopeOk_success _ _ _
  · intro body el env h
    unfold BusinessInsightsAgent.execute at h
    rcases body with e | p
    · simp only [Except.ok.injEq] at h
      rw [← h]
      exact envelopeOk_error _ _ _
    · simp only [Except.ok.injEq] at h
      rw [← h]
      exact envelopeOk_success _ _ _
  · intro pdfGen el env h
    unfold ReportAgent.execute at h
    rcases pdfGen with e | p
    · simp only [Except.ok.injEq] at h
      rw [← h]
      exact envelopeOk_error _ _ _
    · simp only [Except.ok.injEq] at h
      rw [← h]
      exact envelopeOk_success _ _ _
  · intro α k d
    exact envelopeOk_error _ _ _

/-- Witness for C7's amended theorem: a concrete report envelope produced by
`ReportAgent.execute` on a successful PDF generation, and shown well formed. -/
theorem every_produced_envelope_witness :
    envelopeOk (⟨"Report Generation Agent", "success",
      some (⟨"out.pdf"⟩ : ReportPayload), 1, none⟩ : AgentResult ReportPayload) :=
  every_produced_envelope_well_formed.2.2.2.2.2.1 (Except.ok "out.pdf") 1
    ⟨"Report Generation Agent", "success", some ⟨"out.pdf"⟩, 1, none⟩ rfl

/-- C8: no agent's `execute` lets a fault escape — for every task
implementation and all collaborator behaviour, `execute` resolves to an
`Except.ok` envelope (the outer `Except`, the channel of an escaping
exception, is never `error`), and whenever the body raises `e`, `execute`
returns the Failure envelope carrying `str(e)` and the elapsed time measured
at the catch. -/
theorem tasks_contain_faults_and_always_return_envelopes :
    (∀ (sm : List ℚ → Option ℚ) (smo : List Cell → Option Cell)
        (jp : String → Option String) (ac : DataSummary → Option String)
        (hc : Bool) (el : ℚ) (s : Store) (r : Ref),
      (∃ env s2, DataCleaningAgent.execute sm smo jp ac hc el s r =
        (Except.ok env, s2)) ∧
      (∀ e s2, DataCleaningAgent.body sm smo jp ac hc s r = (Except.error e, s2) →
        DataCleaningAgent.execute sm smo jp ac hc el s r =
          (Except.ok ⟨"Data Cleaning Agent", "error", none, el, some e⟩, s2))) ∧
    (∀ (encode : Column → Column)
        (fit : DataFrame → Column → Except String (List ℚ))
        (ac : List (String × ℚ) → Option String) (hc : Bool) (el : ℚ)
        (s : Store) (r : Ref) (target : Option String),
      (∃ env s2, MLAgent.execute encode fit ac hc el s r target =
        (Except.ok env, s2)) ∧
      (∀ e s2, MLAgent.body encode fit ac hc el s r target = (Except.error e, s2) →
        MLAgent.execute encode fit ac hc el s r target =
          (Except.ok ⟨"ML Agent", "error", none, el, some e⟩, s2))) ∧
    (∀ (describe : Except String (List (String × String)))
        (corr : Except String (List ((String × String) × ℚ)))
        (heatmap : Except String String)
        (distPlot : String → Except String String)
        (ac : Option String) (hc : Bool) (el : ℚ) (df : DataFrame),
      (∃ env, EDAAgent.execute describe corr heatmap distPlot ac hc el df =
        Except.ok env) ∧
      (∀ e, EDAAgent.body describe corr heatmap distPlot ac hc df =
          Except.error e →
        EDAAgent.execute describe corr heatmap distPlot ac hc el df =
          Except.ok ⟨"EDA Agent", "error", none, el, some e⟩)) ∧
    (∀ (colStats : String → Option OutlierInfo) (hc : Bool)
        (wouldBe : Option String) (el : ℚ) (df : DataFrame),
      (∃ env, AnomalyAgent.execute colStats hc wouldBe el df = Except.ok env) ∧
      (∀ e, AnomalyAgent.body colStats hc wouldBe df = Except.error e →
        AnomalyAgent.execute colStats hc wouldBe el df =
          Except.ok ⟨"Anomaly Detection Agent", "error", none, el, some e⟩)) ∧
    (∀ (body : Except String InsightsPayload) (el : ℚ),
      (∃ env, BusinessInsightsAgent.execute body el = Except.ok env) ∧
      (∀ e, body = Except.error e →
        BusinessInsightsAgent.execute body el =
          Except.ok ⟨"Business Insights Agent", "error", none, el, some e⟩)) ∧
    (∀ (pdfGen : Except String String) (el : ℚ),
      (∃ env, ReportAgent.execute pdfGen el = Except.ok env) ∧
      (∀ e, pdfGen = Except.error e →
        ReportAgent.execute pdfGen el =
          Except.ok ⟨"Report Generation Agent", "error", none, el, some e⟩)) := by
  refine ⟨?_, ?_, ?_, ?_, ?_, ?_⟩
  · intro sm smo jp ac hc el s r
    constructor
    · rcases hb : DataCleaningAgent.body sm smo jp ac hc s r with ⟨bo, st⟩
      unfold DataCleaningAgent.execute
      rw [hb]
      rcases bo with e | p
      · exact ⟨_, _, rfl⟩
      · exact ⟨_, _, rfl⟩
    · intro e s2 he
      unfold DataCleaningAgent.execute
      rw [he]
  · intro encode fit ac hc el s r target
    constructor
    · rcases hb : MLAgent.body encode fit ac hc el s r target with ⟨bo, st⟩
      unfold MLAgent.execute
      rw [hb]
      rcases bo with e | p
      · exact ⟨_, _, rfl⟩
      · exact ⟨_, _, rfl⟩
    · intro e s2 he
      unfold MLAgent.execute
      rw [he]
  · intro describe corr heatmap distPlot ac hc el df
    constructor
    · rcases hb : EDAAgent.body describe corr heatmap distPlot ac hc df with e | p
      · exact ⟨_, by unfold EDAAgent.execute; rw [hb]⟩
      · exact ⟨_, by unfold EDAAgent.execute; rw [hb]⟩
    · intro e he
      unfold EDAAgent.execute
      rw [he]
  · intro colStats hc wouldBe el df
    constructor
    · rcases hb : AnomalyAgent.body colStats hc wouldBe df with e | p
      · exact ⟨_, by unfold AnomalyAgent.execute; rw [hb]⟩
      · exact ⟨_, by unfold AnomalyAgent.execute; rw [hb]⟩
    · intro e he
      unfold AnomalyAgent.execute
      rw [he]
  · intro body el
    constructor
    · rcases body with e | p
      · exact ⟨_, rfl⟩
      · exact ⟨_, rfl⟩
    · intro e he
      rw [he]
      rfl
  · intro pdfGen el
    constructor
    · rcases pdfGen with e | p
      · exact ⟨_, rfl⟩
      · exact ⟨_, rfl⟩
    · intro e he
      rw [he]
      rfl

/-- Witness for C8: the ML task with a concretely failing sklearn fit returns
the Failure envelope with the fault's description and the measured elapsed
time — the fault does not escape `execute`. -/
theorem tasks_contain_faults_witness :
    MLAgent.execute (fun c => c) (fun _ _ => Except.error "ValueError: fit failed")
        (fun _ => none) false 3
        ⟨[[("a", ⟨Dtype.numeric, [Cell.num 1]⟩), ("b", ⟨Dtype.numeric, [Cell.num 2]⟩)]]⟩
        0 (some "a") =
      (Except.ok ⟨"ML Agent", "error", none, 3, some "ValueError: fit failed"⟩,
        ⟨[[("a", ⟨Dtype.numeric, [Cell.num 1]⟩), ("b", ⟨Dtype.numeric, [Cell.num 2]⟩)],
          [("b", ⟨Dtype.numeric, [Cell.num 2]⟩)],
          [("b", ⟨Dtype.numeric, [Cell.num 2]⟩)]]⟩) :=
  (tasks_contain_faults_and_always_return_envelopes.2.1 (fun c => c)
      (fun _ _ => Except.error "ValueError: fit failed") (fun _ => none) false 3
      ⟨[[("a", ⟨Dtype.numeric, [Cell.num 1]⟩), ("b", ⟨Dtype.numeric, [Cell.num 2]⟩)]]⟩
      0 (some "a")).2 "ValueError: fit failed"
    ⟨[[("a", ⟨Dtype.numeric, [Cell.num 1]⟩), ("b", ⟨Dtype.numeric, [Cell.num 2]⟩)],
      [("b", ⟨Dtype.numeric, [Cell.num 2]⟩)],
      [("b", ⟨Dtype.numeric, [Cell.num 2]⟩)]]⟩ rfl

/-- Helper: writing one object leaves every other object unchanged. -/
theorem Store.read_write_ne (s : Store) (r r2 : Ref) (d : DataFrame)
    (h : r ≠ r2) : (s.write r2 d).read r = s.read r := by
  unfold Store.write Store.read
  simp only [List.get?_eq_getElem?]
  rw [List.getElem?_set_ne (Ne.symm h)]

/-- Helper: writing preserves the heap size. -/
theorem Store.length_write (s : Store) (r : Ref) (d : DataFrame) :
    (s.write r d).dfs.length = s.dfs.length := by
  simp [Store.write]

/-- Helper: allocation leaves every existing object unchanged. -/
theorem Store.read_alloc_old (s : Store) (d : DataFrame) (r : Ref)
    (h : r < s.dfs.length) : ((s.alloc d).2).read r = s.read r := by
  unfold Store.alloc Store.read
  simp only [List.get?_eq_getElem?]
  rw [List.getElem?_append_left h]

/-- Helper: allocation grows the heap by one. -/
theorem Store.length_alloc (s : Store) (d : DataFrame) :
    ((s.alloc d).2).dfs.length = s.dfs.length + 1 := by
  simp [Store.alloc]

/-- Helper: the fill loops write only the cleaned object. -/
theorem fillLoop_read_ne (upd : String → Column → Column × CleanOp)
    (cleaned r : Ref) (h : r ≠ cleaned) :
    ∀ (cols : List String) (s : Store) (ops : List CleanOp),
      ((fillLoop upd cleaned cols s ops).1).read r = s.read r := by
  intro cols
  induction cols with
  | nil => intro s ops; rfl
  | cons col rest ih =>
    intro s ops
    simp only [fillLoop]
    split
    · rw [ih, Store.read_write_ne _ _ _ _ h]
    · exact ih s ops

/-- Helper: the fill loops preserve the heap size. -/
theorem fillLoop_length (upd : String → Column → Column × CleanOp)
    (cleaned : Ref) :
    ∀ (cols : List String) (s : Store) (ops : List CleanOp),
      ((fillLoop upd cleaned cols s ops).1).dfs.length = s.dfs.length := by
  intro cols
  induction cols with
  | nil => intro s ops; rfl
  | cons col rest ih =>
    intro s ops
    simp only [fillLoop]
    split
    · rw [ih, Store.length_write]
    · exact ih s ops

/-- Helper: the encoding loop writes only the `X_pre` object. -/
theorem encodeLoop_read_ne (encode : Column → Column) (xp r : Ref)
    (h : r ≠ xp) :
    ∀ (cols : List String) (s : Store),
      (encodeLoop encode xp cols s).read r = s.read r := by
  intro cols
  induction cols with
  | nil => intro s; rfl
  | cons col rest ih =>
    intro s
    simp only [encodeLoop]
    rw [ih, Store.read_write_ne _ _ _ _ h]

/-- Helper: the cleaning body never changes the shared input object — every
write targets the `cleaned_df` copy, every rebinding is a fresh allocation. -/
theorem cleaning_body_read_preserved (sm : List ℚ → Option ℚ)
    (smo : List Cell → Option Cell) (jp : String → Option String)
    (ac : DataSummary → Option String) (hc : Bool) (s : Store) (dfRef : Ref)
    (h : dfRef < s.dfs.length) :
    ((DataCleaningAgent.body sm smo jp ac hc s dfRef).2).read dfRef =
      s.read dfRef := by
  have hne : dfRef ≠ (s.alloc (s.read dfRef)).1 := by
    show dfRef ≠ s.dfs.length
    exact Nat.ne_of_lt h
  simp only [DataCleaningAgent.body]
  split
  · rw [Store.read_alloc_old _ _ _ (by
      rw [fillLoop_length, fillLoop_length, Store.length_alloc]
      exact Nat.lt_succ_of_lt h)]
    rw [fillLoop_read_ne _ _ _ hne, fillLoop_read_ne _ _ _ hne,
      Store.read_alloc_old _ _ _ h]
  · rw [fillLoop_read_ne _ _ _ hne, fillLoop_read_ne _ _ _ hne,
      Store.read_alloc_old _ _ _ h]

/-- Helper: the ML body never changes the shared input object — `drop` and
`copy` allocate, encoding writes only the `X_pre` copy. -/
theorem ml_body_read_preserved (encode : Column → Column)
    (fit : DataFrame → Column → Except String (List ℚ))
    (ac : List (String × ℚ) → Option String) (hc : Bool) (el : ℚ)
    (s : Store) (dfRef : Ref) (target : Option String)
    (h : dfRef < s.dfs.length) :
    ((MLAgent.body encode fit ac hc el s dfRef target).2).read dfRef =
      s.read dfRef := by
  simp only [MLAgent.body]
  split
  · rfl
  · rename_i tgt htgt
    split
    · rfl
    · have hx : dfRef ≠ ((s.alloc (dropCol (s.read dfRef) tgt)).2.alloc
          ((s.alloc (dropCol (s.read dfRef) tgt)).2.read
            (s.alloc (dropCol (s.read dfRef) tgt)).1)).1 := by
        show dfRef ≠ ((s.alloc (dropCol (s.read dfRef) tgt)).2).dfs.length
        rw [Store.length_alloc]
        exact Nat.ne_of_lt (Nat.lt_succ_of_lt h)
      split
      · rw [encodeLoop_read_ne _ _ _ hx, Store.read_alloc_old _ _ _ (by
          rw [Store.length_alloc]; exact Nat.lt_succ_of_lt h), Store.read_alloc_old _ _ _ h]
      · rw [encodeLoop_read_ne _ _ _ hx, Store.read_alloc_old _ _ _ (by
          rw [Store.length_alloc]; exact Nat.lt_succ_of_lt h), Store.read_alloc_old _ _ _ h]

/-- Helper: `execute` returns the body's store in both branches of the catch. -/
theorem cleaning_execute_store_eq (sm : List ℚ → Option ℚ)
    (smo : List Cell → Option Cell) (jp : String → Option String)
    (ac : DataSummary → Option String) (hc : Bool) (el : ℚ)
    (s : Store) (r : Ref) :
    (DataCleaningAgent.execute sm smo jp ac hc el s r).2 =
      (DataCleaningAgent.body sm smo jp ac hc s r).2 := by
  unfold DataCleaningAgent.execute
  rcases DataCleaningAgent.body sm smo jp ac hc s r with ⟨bo, st⟩
  rcases bo with e | p <;> rfl

/-- Helper: the ML `execute` returns the body's store in both branches. -/
theorem ml_execute_store_eq (encode : Column → Column)
    (fit : DataFrame → Column → Except String (List ℚ))
    (ac : List (String × ℚ) → Option String) (hc : Bool) (el : ℚ)
    (s : Store) (r : Ref) (target : Option String) :
    (MLAgent.execute encode fit ac hc el s r target).2 =
      (MLAgent.body encode fit ac hc el s r target).2 := by
  unfold MLAgent.execute
  rcases MLAgent.body encode fit ac hc el s r target with ⟨bo, st⟩
  rcases bo with e | p <;> rfl

/-- C9: the shared input dataframe is read-only.  The cleaning and ML tasks —
the two that need modified data — mutate only their own freshly allocated
copies (`df.copy()`, `df.drop(...)`, `X.copy()`); after either `execute`
returns, the object the caller's reference points to is unchanged, for every
store, every valid reference and all collaborator behaviour.  (The EDA,
anomaly, insights and report tasks are modelled as pure readers: they perform
no dataframe write at all.) -/
theorem shared_input_dataframe_read_only (s : Store) (dfRef : Ref)
    (h : dfRef < s.dfs.length) :
    (∀ (sm : List ℚ → Option ℚ) (smo : List Cell → Option Cell)
        (jp : String → Option String) (ac : DataSummary → Option String)
        (hc : Bool) (el : ℚ),
      ((DataCleaningAgent.execute sm smo jp ac hc el s dfRef).2).read dfRef =
        s.read dfRef) ∧
    (∀ (encode : Column → Column)
        (fit : DataFrame → Column → Except String (List ℚ))
        (ac : List (String × ℚ) → Option String) (hc : Bool) (el : ℚ)
        (target : Option String),
      ((MLAgent.execute encode fit ac hc el s dfRef target).2).read dfRef =
        s.read dfRef) := by
  constructor
  · intro sm smo jp ac hc el
    rw [cleaning_execute_store_eq]
    exact cleaning_body_read_preserved sm smo jp ac hc s dfRef h
  · intro encode fit ac hc el target
    rw [ml_execute_store_eq]
    exact ml_body_read_preserved encode fit ac hc el s dfRef target h

/-- Witness for C9: a one-object store holding a dataframe with a missing
numeric cell; after the cleaning task runs (filling its copy), the caller's
object is verbatim the original. -/
theorem shared_input_read_only_witness :
    (0 : Nat) < (Store.mk [[("a", ⟨Dtype.numeric, [Cell.num 1, Cell.null]⟩)]]).dfs.length ∧
    ((DataCleaningAgent.execute (fun _ => some 1) (fun _ => none) (fun _ => none)
        (fun _ => none) false 2
        (Store.mk [[("a", ⟨Dtype.numeric, [Cell.num 1, Cell.null]⟩)]]) 0).2).read 0 =
      (Store.mk [[("a", ⟨Dtype.numeric, [Cell.num 1, Cell.null]⟩)]]).read 0 :=
  ⟨by decide,
   (shared_input_dataframe_read_only
      (Store.mk [[("a", ⟨Dtype.numeric, [Cell.num 1, Cell.null]⟩)]]) 0
      (by decide)).1 (fun _ => some 1) (fun _ => none) (fun _ => none)
      (fun _ => none) false 2⟩
